import Mathlib

/-!
Shallow embedding of the availability / status-sync reconciliation logic of
server/mscalendar/availability.go (mattermost-plugin-msoffice).

Modelling conventions:
- Instants are one integer timescale (`Timestamp := Int`, conceptually Unix
  microseconds): the Go code compares instants via Time().UnixMicro() and
  renders the event start via RFC3339 when fingerprinting. We render the
  instant by its decimal value; like RFC3339 on UTC times it is an injective
  rendering of the instant at the granularity of the model.
- External collaborators (key-value store, plugin API, poster, remote client)
  are modelled by environment records carrying success flags and oracle
  results; each observable side effect (presence write, StoreUserActiveEvents
  write, StoreUser write, direct message) is accumulated in an effects record.
- Go slices become lists, Go maps built by insertion become last-wins lookups
  over the insertion list.
-/

namespace Availability

/-- Instants on one integer timescale (conceptually Unix microseconds). -/
abbrev Timestamp := Int

/-- The fields of remote.Event read by availability.go: stable UID, start and
end instants, busy classification, cancellation flag, and attendees (only the
length of the attendee list is consulted). -/
structure RemoteEvent where
  iCalUID : String
  start : Timestamp
  endTime : Timestamp
  showAs : String
  isCancelled : Bool
  attendees : List String
  deriving Repr, DecidableEq

/-- The per-user settings consulted by the sync pipeline
(store.Settings fields used in availability.go). -/
structure Settings where
  updateStatusFromOptions : String
  getConfirmation : Bool
  setCustomStatus : Bool
  receiveReminders : Bool
  deriving Repr, DecidableEq

/-- The fields of store.User read or written by availability.go. -/
structure User where
  mattermostUserID : String
  remoteID : String
  settings : Settings
  lastStatus : String
  activeEvents : List String
  isCustomStatusSet : Bool
  deriving Repr, DecidableEq

/-- The fields of the platform model.Status value used by the reconciler. -/
structure MMStatus where
  userId : String
  status : String
  manual : Bool
  deriving Repr, DecidableEq

/-- model.StatusOnline of the platform API. -/
def StatusOnline : String := "online"

/-- model.StatusAway of the platform API. -/
def StatusAway : String := "away"

/-- model.StatusDnd of the platform API. -/
def StatusDnd : String := "dnd"

/-- model.StatusOffline of the platform API. -/
def StatusOffline : String := "offline"

/-- Modelled from the spec: the status-update mode constant for the off mode
(constant NotSetStatusOption is declared outside src/; the spec lists the three
modes as off, DND-mode, Away-mode). -/
def NotSetStatusOption : String := "Do not set status"

/-- Modelled from the spec: the status-update mode constant for the Away mode
(constant AwayStatusOption is declared outside src/). -/
def AwayStatusOption : String := "Away"

/-- Modelled from the spec: the status-update mode constant for the DND mode
(constant DNDStatusOption is declared outside src/). -/
def DNDStatusOption : String := "Do Not Disturb"

/-- filterBusyEvents keeps the events whose display classification is busy. -/
def filterBusyEvents (events : List RemoteEvent) : List RemoteEvent :=
  events.filter (fun e => e.showAs == "busy")

/-- The sort performed inside checkOverlappingEvents: order events by start
instant (sort.Slice with a strict comparison on Start UnixMicro; ties are left
in an unspecified order by Go, the model uses a stable sort). -/
def sortEventsByStart (events : List RemoteEvent) : List RemoteEvent :=
  List.insertionSort (fun a b => a.start ≤ b.start) events

/-- Adjacent-pair overlap scan of checkOverlappingEvents, on an already sorted
list: some event ends strictly after the next one starts. -/
def hasOverlapAdj : List RemoteEvent → Bool
  | [] => false
  | [_] => false
  | a :: b :: rest => (b.start < a.endTime) || hasOverlapAdj (b :: rest)

/-- checkOverlappingEvents: sort by start instant, then report whether any
event starts strictly before the previous one ends. -/
def checkOverlappingEvents (events : List RemoteEvent) : Bool :=
  hasOverlapAdj (sortEventsByStart events)

/-- The event fingerprint: ICalUID, one space, and the rendered start instant
(the Go code renders Start in RFC3339 UTC; see the module conventions). -/
def eventHash (e : RemoteEvent) : String :=
  e.iCalUID ++ " " ++ toString e.start

/-- The remoteHashes loop of setStatusFromCalendarView: fingerprints of the
non-cancelled events, in list order. -/
def remoteHashesOf (events : List RemoteEvent) : List String :=
  (events.filter (fun e => !e.isCancelled)).map eventHash

/-- Success flags for the store and plugin-API operations the presence path
performs; a false flag makes the corresponding call return an error. -/
structure OpEnv where
  storeUserOk : Bool := true
  storeActiveEventsOk : Bool := true
  updateStatusOk : Bool := true
  dmOk : Bool := true
  deriving Repr, DecidableEq

/-- Observable side effects of the presence path: StoreUser writes (the user
record stored), presence statuses written, StoreUserActiveEvents writes (the
hash list stored), and confirmation DMs (the event list attached). -/
structure PresenceEffects where
  storeUserWrites : List User := []
  presenceWrites : List String := []
  activeEventsWrites : List (List String) := []
  dms : List (List RemoteEvent) := []
  deriving Repr, DecidableEq

/-- The Go triple (message, isStatusChanged, error) of the presence path,
together with the accumulated side effects. -/
structure PresenceOutcome where
  msg : String
  changed : Bool
  fail : Bool
  eff : PresenceEffects
  deriving Repr, DecidableEq

/-- setStatusOrAskUser: compute the status to set (restore target when free,
busy status when not), update LastStatus on the user record, persist the user,
then either write presence directly or send a confirmation DM. Returns the
error, the effects, and the user record as stored. -/
def setStatusOrAskUser (env : OpEnv) (user : User) (currentStatus : MMStatus)
    (events : List RemoteEvent) (isFree : Bool) :
    Option String × PresenceEffects × User :=
  let toSet := if isFree && user.lastStatus != "" then user.lastStatus else StatusOnline
  let user1 := if isFree && user.lastStatus != "" then { user with lastStatus := "" } else user
  let toSet1 :=
    if !isFree then
      (if user.settings.updateStatusFromOptions == AwayStatusOption then StatusAway else StatusDnd)
    else toSet
  let user2 :=
    if !isFree && !user.settings.getConfirmation then
      { user1 with lastStatus := if currentStatus.manual then currentStatus.status else "" }
    else user1
  if !env.storeUserOk then (some "store user failed", {}, user2)
  else
    let eff : PresenceEffects := { storeUserWrites := [user2] }
    if !user2.settings.getConfirmation then
      if !env.updateStatusOk then (some "update status failed", eff, user2)
      else (none, { eff with presenceWrites := [toSet1] }, user2)
    else
      if !env.dmOk then (some "dm failed", eff, user2)
      else (none, { eff with dms := [events] }, user2)

/-- setStatusFromCalendarView: the per-user presence reconciliation.
The Go code sorts the filtered busy slice in place inside
checkOverlappingEvents before any element of the slice is read; the two
branches before that point only test lengths, which sorting preserves, so the
model sorts up front. -/
def setStatusFromCalendarView (env : OpEnv) (user : User) (status : MMStatus)
    (viewEvents : List RemoteEvent) : PresenceOutcome :=
  let currentStatus := status.status
  if user.settings.updateStatusFromOptions == "" then
    { msg := "No value set from options to update status", changed := false, fail := false, eff := {} }
  else if currentStatus == StatusOffline && !user.settings.getConfirmation then
    { msg := "User offline and does not want status change confirmations. No status change",
      changed := false, fail := false, eff := {} }
  else
    let events := sortEventsByStart (filterBusyEvents viewEvents)
    let busyStatus :=
      if user.settings.updateStatusFromOptions == AwayStatusOption then StatusAway else StatusDnd
    match events with
    | [] =>
      if user.activeEvents.length == 0 then
        { msg := "No events in local or remote. No status change.",
          changed := false, fail := false, eff := {} }
      else
        let message :=
          if currentStatus == busyStatus then
            (if user.lastStatus != "" then
              "User is no longer busy in calendar. Set status to previous status (" ++
                user.lastStatus ++ ")"
            else "User is no longer busy in calendar. Set status to online.")
          else
            "User is no longer busy in calendar, but is not set to busy (" ++ busyStatus ++
              "). No status change."
        if currentStatus == busyStatus then
          match setStatusOrAskUser env user status events true with
          | (some _, eff, _) => { msg := "", changed := false, fail := true, eff := eff }
          | (none, eff, _) =>
            if !env.storeActiveEventsOk then { msg := "", changed := true, fail := true, eff := eff }
            else
              { msg := message, changed := true, fail := false,
                eff := { eff with activeEventsWrites := eff.activeEventsWrites ++ [[]] } }
        else
          if !env.storeActiveEventsOk then { msg := "", changed := false, fail := true, eff := {} }
          else
            { msg := message, changed := false, fail := false,
              eff := { activeEventsWrites := [[]] } }
    | e0 :: rest =>
      if hasOverlapAdj (e0 :: rest) then
        { msg := "Overlapping events, not updating status", changed := false, fail := false, eff := {} }
      else if e0.attendees.length < 1 then
        { msg := "No attendee present, not updating status", changed := false, fail := false, eff := {} }
      else
        let remoteHashes := remoteHashesOf (e0 :: rest)
        if user.activeEvents.length == 0 then
          if currentStatus == busyStatus then
            let user1 := { user with lastStatus := if status.manual then currentStatus else "" }
            -- the StoreUser error is ignored here (availability.go line 381)
            let eff1 : PresenceEffects :=
              if env.storeUserOk then { storeUserWrites := [user1] } else {}
            if !env.storeActiveEventsOk then { msg := "", changed := false, fail := true, eff := eff1 }
            else
              { msg := "User was already marked as busy. No status change.",
                changed := false, fail := false,
                eff := { eff1 with activeEventsWrites := [remoteHashes] } }
          else
            match setStatusOrAskUser env user status (e0 :: rest) false with
            | (some _, eff, _) => { msg := "", changed := false, fail := true, eff := eff }
            | (none, eff, _) =>
              if !env.storeActiveEventsOk then { msg := "", changed := true, fail := true, eff := eff }
              else
                { msg := "User was free, but is now busy (" ++ busyStatus ++ "). Set status to busy.",
                  changed := true, fail := false,
                  eff := { eff with activeEventsWrites := eff.activeEventsWrites ++ [remoteHashes] } }
        else
          let newEventExists := remoteHashes.any (fun r => !user.activeEvents.contains r)
          if !newEventExists then
            { msg := "No change in active events. Total number of events: " ++
                toString (e0 :: rest).length,
              changed := false, fail := false, eff := {} }
          else
            if currentStatus != busyStatus then
              match setStatusOrAskUser env user status (e0 :: rest) false with
              | (some _, eff, _) => { msg := "", changed := false, fail := true, eff := eff }
              | (none, eff, _) =>
                if !env.storeActiveEventsOk then
                  { msg := "", changed := true, fail := true, eff := eff }
                else
                  { msg := "User was free, but is now busy. Set status to busy (" ++ busyStatus ++ ").",
                    changed := true, fail := false,
                    eff := { eff with activeEventsWrites := eff.activeEventsWrites ++ [remoteHashes] } }
            else
              if !env.storeActiveEventsOk then { msg := "", changed := false, fail := true, eff := {} }
              else
                { msg := "User is already busy. No status change.",
                  changed := false, fail := false,
                  eff := { activeEventsWrites := [remoteHashes] } }

/-- The platform model.CustomStatus fields written by the reconciler. -/
structure CustomStatus where
  emoji : String
  text : String
  expiresAt : Timestamp
  duration : String
  deriving Repr, DecidableEq

/-- Environment for the custom-status path: success flags for each external
call and the custom status currently on the platform user record. -/
structure CustomEnv where
  getUserOk : Bool := true
  currentCustomStatus : Option CustomStatus := none
  removeOk : Bool := true
  updateOk : Bool := true
  storeFlagOk : Bool := true
  deriving Repr, DecidableEq

/-- The Go triple (message, isStatusChanged, error) of the custom-status path
plus its observable effects: whether the custom status was removed, the custom
status written, and the IsCustomStatusSet values stored. -/
structure CustomOutcome where
  msg : String
  changed : Bool
  fail : Bool
  removed : Bool := false
  setCustom : Option CustomStatus := none
  flagWrites : List Bool := []
  deriving Repr, DecidableEq

/-- setCustomStatusFromCalendarView: the per-user custom-status
reconciliation. The Go code tests emptiness of the filtered busy slice before
checkOverlappingEvents sorts it in place; emptiness is preserved by sorting,
so the model matches on the sorted list directly. -/
def setCustomStatusFromCalendarView (env : CustomEnv) (user : User)
    (viewEvents : List RemoteEvent) : CustomOutcome :=
  if !user.settings.setCustomStatus then
    { msg := "User don\x27t want to set custom status", changed := false, fail := false }
  else
    match sortEventsByStart (filterBusyEvents viewEvents) with
    | [] =>
      if user.isCustomStatusSet then
        if !env.removeOk then { msg := "", changed := false, fail := true }
        else if !env.storeFlagOk then
          { msg := "", changed := false, fail := true, removed := true }
        else
          { msg := "No event present to set custom status", changed := false, fail := false,
            removed := true, flagWrites := [false] }
      else
        { msg := "No event present to set custom status", changed := false, fail := false }
    | e0 :: rest =>
      if hasOverlapAdj (e0 :: rest) then
        { msg := "Overlapping events, not setting a custom status", changed := false, fail := false }
      else if e0.isCancelled then
        { msg := "Event cancelled, not setting custom status", changed := false, fail := false }
      else if e0.attendees.length < 1 then
        { msg := "No attendee present, not setting custom status", changed := false, fail := false }
      else if !env.getUserOk then { msg := "", changed := false, fail := true }
      else if env.currentCustomStatus.isSome && !user.isCustomStatusSet then
        { msg := "User already have a custom status set, ignoring custom status change",
          changed := false, fail := false }
      else if !env.updateOk then { msg := "", changed := false, fail := true }
      else if !env.storeFlagOk then
        { msg := "", changed := true, fail := true,
          setCustom := some { emoji := "calendar", text := "In a meeting",
                              expiresAt := e0.endTime, duration := "date_and_time" } }
      else
        { msg := "", changed := true, fail := false,
          setCustom := some { emoji := "calendar", text := "In a meeting",
                              expiresAt := e0.endTime, duration := "date_and_time" },
          flagWrites := [true] }

/-- upcomingEventNotificationTime (10 minutes) on the model timescale. -/
def upcomingEventNotificationTime : Int := 10 * 60 * 1000000

/-- StatusSyncJobInterval (5 minutes) on the model timescale. -/
def StatusSyncJobInterval : Int := 5 * 60 * 1000000

/-- upcomingEventNotificationWindow: 110 percent of the sync interval,
computed as in Go by integer multiplication then division. -/
def upcomingEventNotificationWindow : Int := StatusSyncJobInterval * 11 / 10

/-- Environment of notifyUpcomingEvents: the current instant, the timezone
oracle (none models a GetTimezoneByID error), and whether rendering each
event succeeds. -/
structure NotifyEnv where
  now : Timestamp
  timezone : Option String
  renderOk : RemoteEvent → Bool

/-- The reminder loop of notifyUpcomingEvents with the lazily resolved
timezone threaded through (the empty string means not yet resolved, exactly
as in the Go code). Returns the events for which a DM was sent. -/
def notifyUpcomingEventsAux (env : NotifyEnv) : List RemoteEvent → String → List RemoteEvent
  | [], _ => []
  | e :: rest, tz =>
    if e.isCancelled then notifyUpcomingEventsAux env rest tz
    else
      let upcomingTime := env.now + upcomingEventNotificationTime
      let diff := e.start - upcomingTime
      if diff < upcomingEventNotificationWindow ∧ -upcomingEventNotificationWindow < diff then
        if tz == "" then
          match env.timezone with
          | none => []
          | some z => (if env.renderOk e then [e] else []) ++ notifyUpcomingEventsAux env rest z
        else (if env.renderOk e then [e] else []) ++ notifyUpcomingEventsAux env rest tz
      else notifyUpcomingEventsAux env rest tz

/-- notifyUpcomingEvents: reminder delivery for one user, starting with the
timezone unresolved. A DM is recorded when the event is in the reminder
window and rendering succeeds; a DM send failure is logged and the loop
continues, so it does not affect the recorded attempts. -/
def notifyUpcomingEvents (env : NotifyEnv) (events : List RemoteEvent) : List RemoteEvent :=
  notifyUpcomingEventsAux env events ""

/-- One entry of the store.UserIndex (only MattermostUserID is read). -/
structure UserIndexEntry where
  mattermostUserID : String
  deriving Repr, DecidableEq

/-- One remote.ViewCalendarResponse: the remote user it belongs to, the
per-user error if the batched request failed for that user, and the events. -/
structure ViewResponse where
  remoteUserID : String
  viewErr : Option String
  events : List RemoteEvent
  deriving Repr, DecidableEq

/-- The StatusSyncJobSummary aggregate returned by a sync cycle. -/
structure StatusSyncJobSummary where
  NumberOfUsersFailedStatusChanged : Nat := 0
  NumberOfUsersStatusChanged : Nat := 0
  NumberOfUsersProcessed : Nat := 0
  deriving Repr, DecidableEq

/-- Environment of a sync cycle: the superuser-client filter, the user index,
the per-user store loads, the batched calendar fetch, the bulk status read,
and the per-user environments of the inner pipelines. -/
structure SyncEnv where
  filterSuperuserOk : Bool := true
  loadUserIndex : Except String (List UserIndexEntry) := .ok []
  loadUser : String → Option User := fun _ => none
  getCalendarViews : List User → Except String (List ViewResponse) := fun _ => .ok []
  getStatuses : List String → Except String (List MMStatus) := fun _ => .ok []
  opEnv : OpEnv := {}
  customEnvOf : String → CustomEnv := fun _ => {}
  notifyEnvOf : String → NotifyEnv := fun _ => { now := 0, timezone := none, renderOk := fun _ => false }

/-- Last-wins lookup modelling a Go map built by inserting each element of the
list in order under its remote ID key. -/
def userByRemoteID (users : List User) (rid : String) : Option User :=
  users.reverse.find? (fun u => u.remoteID == rid)

/-- Last-wins lookup modelling the statusMap built from the bulk status read. -/
def statusLookup (statuses : List MMStatus) (id : String) : Option MMStatus :=
  statuses.reverse.find? (fun s => s.userId == id)

/-- Modelled from the spec: utils.JSONBlock (declared outside src/) renders
the calendar views as a fenced JSON block; modelled as a deterministic
placeholder rendering, no claim depends on its text. -/
def jsonBlock (views : List ViewResponse) : String :=
  "calendar views: " ++ toString views.length

/-- Mutable state of the per-view loop in setUserStatuses: the running
message, the log counter, the two counters, and the per-user pipeline runs
performed so far. -/
structure LoopState where
  res : String := ""
  logs : Nat := 0
  changed : Nat := 0
  failed : Nat := 0
  presenceRuns : List (String × PresenceOutcome) := []
  customRuns : List (String × CustomOutcome) := []

/-- One iteration of the per-view loop of setUserStatuses: skip unknown
remote users, count a per-user view error as a failure and skip the user,
otherwise run the presence pipeline and the custom-status pipeline exactly as
the Go loop does, with its counting convention. -/
def statusStep (env : SyncEnv) (toUpdate : List User) (statuses : List MMStatus)
    (acc : LoopState) (view : ViewResponse) : LoopState :=
  match userByRemoteID toUpdate view.remoteUserID with
  | none => acc
  | some user =>
    match view.viewErr with
    | some _ => { acc with logs := acc.logs + 1, failed := acc.failed + 1 }
    | none =>
      match statusLookup statuses user.mattermostUserID with
      | none => acc
      | some status =>
        let acc1 :=
          if user.settings.updateStatusFromOptions != NotSetStatusOption then
            let out := setStatusFromCalendarView env.opEnv user status view.events
            { acc with
              res := out.msg,
              logs := if out.fail then acc.logs + 1 else acc.logs,
              failed := if out.fail then acc.failed + 1 else acc.failed,
              changed := if out.changed then acc.changed + 1 else acc.changed,
              presenceRuns := acc.presenceRuns ++ [(user.mattermostUserID, out)] }
          else acc
        if user.settings.setCustomStatus then
          let cout := setCustomStatusFromCalendarView (env.customEnvOf user.mattermostUserID) user view.events
          { acc1 with
            res := cout.msg,
            logs := if cout.fail then acc1.logs + 1 else acc1.logs,
            failed := if cout.fail then acc1.failed + 1 else acc1.failed,
            changed :=
              if cout.changed && user.settings.updateStatusFromOptions == NotSetStatusOption
              then acc1.changed + 1 else acc1.changed,
            customRuns := acc1.customRuns ++ [(user.mattermostUserID, cout)] }
        else acc1

/-- setUserStatuses: filter the users that want any status update, read all
their platform statuses in one call (an error there aborts and is returned),
then fold the per-view loop over the calendar views. Returns the output
string, the changed and failed counters, the error, and the pipeline runs. -/
def setUserStatuses (env : SyncEnv) (users : List User) (views : List ViewResponse) :
    String × Nat × Nat × Option String × LoopState :=
  let toUpdate := users.filter (fun u =>
    u.settings.updateStatusFromOptions != NotSetStatusOption || u.settings.setCustomStatus)
  if toUpdate.isEmpty then ("No users want their status updated", 0, 0, none, {})
  else
    match env.getStatuses (toUpdate.map (·.mattermostUserID)) with
    | .error e => ("", 0, 0, some ("error in getting Mattermost user statuses for connected users: " ++ e), {})
    | .ok statuses =>
      let final := views.foldl (statusStep env toUpdate statuses) {}
      let outStr := if final.res != "" then final.res else jsonBlock views
      (outStr, final.changed, final.failed, none, final)

/-- The per-user load loop at the top of syncUsers: a store load failure
counts one failure and skips the user; loaded users are kept when any of
their settings requires syncing. Returns the failure count and the kept
users in index order. -/
def loadPhase (env : SyncEnv) : List UserIndexEntry → Nat × List User
  | [] => (0, [])
  | u :: rest =>
    match env.loadUser u.mattermostUserID with
    | none =>
      let (f, us) := loadPhase env rest
      (f + 1, us)
    | some user =>
      let (f, us) := loadPhase env rest
      if user.settings.updateStatusFromOptions != NotSetStatusOption
          || user.settings.receiveReminders || user.settings.setCustomStatus
      then (f, user :: us) else (f, us)

/-- deliverReminders: for each view belonging to a user with reminders
enabled and without a per-user error, run the reminder loop; returns the
reminder DM lists per user. -/
def deliverReminders (env : SyncEnv) (users : List User) (views : List ViewResponse) :
    List (String × List RemoteEvent) :=
  let toNotify := users.filter (·.settings.receiveReminders)
  if toNotify.isEmpty then []
  else
    views.foldl (fun acc view =>
      match userByRemoteID toNotify view.remoteUserID with
      | none => acc
      | some user =>
        match view.viewErr with
        | some _ => acc
        | none =>
          acc ++ [(user.mattermostUserID,
            notifyUpcomingEvents (env.notifyEnvOf user.mattermostUserID) view.events)]) []

/-- Result of a sync cycle: the output string, the summary, and the error. -/
structure SyncResult where
  out : String
  summary : StatusSyncJobSummary
  err : Option String
  deriving Repr, DecidableEq

/-- syncUsers: load each indexed user (failures counted and skipped), fetch
the calendar views in one batch (an error aborts the cycle), deliver
reminders, then set statuses; per-user failures of the inner loop are added
to the summary. -/
def syncUsers (env : SyncEnv) (userIndex : List UserIndexEntry) : SyncResult :=
  if userIndex.isEmpty then
    { out := "No connected users found", summary := {}, err := none }
  else
    let processedN := userIndex.length
    let (loadFailed, users) := loadPhase env userIndex
    if users.isEmpty then
      { out := "No users need to be synced",
        summary := { NumberOfUsersProcessed := processedN,
                     NumberOfUsersFailedStatusChanged := loadFailed }, err := none }
    else
      match env.getCalendarViews users with
      | .error e =>
        { out := "",
          summary := { NumberOfUsersProcessed := processedN,
                       NumberOfUsersFailedStatusChanged := loadFailed },
          err := some ("not able to get calendar views for connected users: " ++ e) }
      | .ok views =>
        if views.isEmpty then
          { out := "No calendar views found",
            summary := { NumberOfUsersProcessed := processedN,
                         NumberOfUsersFailedStatusChanged := loadFailed }, err := none }
        else
          -- deliverReminders env users views runs here; its DMs are observable
          -- through deliverReminders itself and do not touch the summary
          match setUserStatuses env users views with
          | (_, _, _, some e, _) =>
            { out := "",
              summary := { NumberOfUsersProcessed := processedN,
                           NumberOfUsersFailedStatusChanged := loadFailed },
              err := some ("error setting the user statuses: " ++ e) }
          | (outS, changed, failed2, none, _) =>
            { out := outS,
              summary := { NumberOfUsersProcessed := processedN,
                           NumberOfUsersFailedStatusChanged := loadFailed + failed2,
                           NumberOfUsersStatusChanged := changed }, err := none }

/-- SyncAll: obtaining the superuser client or loading the user index are
structural steps; their failure aborts the cycle with an error, except the
distinguished not-found index answer, which yields a clean empty cycle. -/
def SyncAll (env : SyncEnv) : SyncResult :=
  if !env.filterSuperuserOk then
    { out := "", summary := {}, err := some "not able to filter the super user client" }
  else
    match env.loadUserIndex with
    | .error e =>
      if e == "not found" then
        { out := "No users found in user index", summary := {}, err := none }
      else
        { out := "", summary := {},
          err := some ("not able to load the users from user index: " ++ e) }
    | .ok idx => syncUsers env idx

/-! Shared concrete sample values used by witnesses and counterexamples. -/

/-- Sample settings: DND mode, no confirmation, custom status on. -/
def exSettings : Settings :=
  { updateStatusFromOptions := DNDStatusOption, getConfirmation := false,
    setCustomStatus := true, receiveReminders := false }

/-- Sample user in the FREE state. -/
def exUser : User :=
  { mattermostUserID := "mm1", remoteID := "r1", settings := exSettings,
    lastStatus := "", activeEvents := [], isCustomStatusSet := false }

/-- Sample current platform status: online, not manual. -/
def exStatus : MMStatus := { userId := "mm1", status := StatusOnline, manual := false }

/-- Sample busy event with two attendees. -/
def exEvent : RemoteEvent :=
  { iCalUID := "event_id", start := 100, endTime := 200, showAs := "busy",
    isCancelled := false, attendees := ["a1", "a2"] }

/-- An overlap scan that fires needs at least two events in the list. -/
theorem hasOverlapAdj_two_le_length {l : List RemoteEvent} (h : hasOverlapAdj l = true) :
    2 ≤ l.length := by
  match l with
  | [] => simp [hasOverlapAdj] at h
  | [_] => simp [hasOverlapAdj] at h
  | _ :: _ :: _ => simp

/-- C9: for every user whose current remote status is Offline and whose
GetConfirmation setting is false, setStatusFromCalendarView is a complete
no-op: no presence write, no store write, no DM, and it reports no status
change, for every environment, calendar view and stored ActiveEvents. -/
theorem C9_offline_no_confirmation_noop (env : OpEnv) (user : User) (status : MMStatus)
    (viewEvents : List RemoteEvent)
    (hoff : status.status = StatusOffline)
    (hconf : user.settings.getConfirmation = false) :
    (setStatusFromCalendarView env user status viewEvents).eff = {} ∧
    (setStatusFromCalendarView env user status viewEvents).changed = false ∧
    (setStatusFromCalendarView env user status viewEvents).fail = false := by
  unfold setStatusFromCalendarView
  by_cases h : user.settings.updateStatusFromOptions == ""
  · simp [h]
  · simp [h, hoff, hconf]

/-- Witness for C9 at a concrete offline user. -/
theorem C9_witness :
    (setStatusFromCalendarView {} exUser { exStatus with status := StatusOffline } [exEvent]).eff
        = {} ∧
    (setStatusFromCalendarView {} exUser { exStatus with status := StatusOffline } [exEvent]).changed
        = false ∧
    (setStatusFromCalendarView {} exUser { exStatus with status := StatusOffline } [exEvent]).fail
        = false :=
  C9_offline_no_confirmation_noop {} exUser { exStatus with status := StatusOffline } [exEvent]
    rfl rfl

/-- C1 counterexample: in the claimed scenario the code returns the summary
message "User was free, but is now busy (dnd). Set status to busy." and not
the message the claim states, which ends in "busy (dnd)." instead. -/
theorem C1_counterexample :
    (setStatusFromCalendarView {} exUser exStatus [exEvent]).msg =
      "User was free, but is now busy (dnd). Set status to busy." ∧
    "User was free, but is now busy (dnd). Set status to busy." ≠
      "User was free, but is now busy (dnd). Set status to busy (dnd)." := by
  constructor
  · decide
  · decide

/-- C1 (amended): for a user with UpdateStatusFromOptions=DND,
GetConfirmation=false, current remote status Online (not manual), one
busy-classified non-cancelled event with 2 attendees in the view, and empty
stored ActiveEvents, setStatusFromCalendarView writes presence status DND,
stores ActiveEvents equal to the single event fingerprint, reports the status
as changed, and returns the summary message
"User was free, but is now busy (dnd). Set status to busy." -/
theorem C1_free_to_busy_scenario (user : User) (status : MMStatus) (e : RemoteEvent)
    (hopt : user.settings.updateStatusFromOptions = DNDStatusOption)
    (hconf : user.settings.getConfirmation = false)
    (hst : status.status = StatusOnline) (hman : status.manual = false)
    (hbusy : e.showAs = "busy") (hcan : e.isCancelled = false)
    (hatt : e.attendees.length = 2)
    (hact : user.activeEvents = []) :
    (setStatusFromCalendarView {} user status [e]).eff.presenceWrites = [StatusDnd] ∧
    (setStatusFromCalendarView {} user status [e]).eff.activeEventsWrites = [[eventHash e]] ∧
    (setStatusFromCalendarView {} user status [e]).changed = true ∧
    (setStatusFromCalendarView {} user status [e]).msg =
      "User was free, but is now busy (dnd). Set status to busy." := by
  unfold setStatusFromCalendarView setStatusOrAskUser
  simp [hopt, hconf, hst, hman, hbusy, hcan, hact, hatt, DNDStatusOption, AwayStatusOption,
    StatusOnline, StatusOffline, StatusDnd, filterBusyEvents, sortEventsByStart,
    List.insertionSort, List.orderedInsert, hasOverlapAdj, remoteHashesOf]

/-- Witness for C1 at the concrete sample scenario. -/
theorem C1_witness :
    (setStatusFromCalendarView {} exUser exStatus [exEvent]).eff.presenceWrites = [StatusDnd] ∧
    (setStatusFromCalendarView {} exUser exStatus [exEvent]).eff.activeEventsWrites
        = [[eventHash exEvent]] ∧
    (setStatusFromCalendarView {} exUser exStatus [exEvent]).changed = true ∧
    (setStatusFromCalendarView {} exUser exStatus [exEvent]).msg =
      "User was free, but is now busy (dnd). Set status to busy." :=
  C1_free_to_busy_scenario exUser exStatus exEvent rfl rfl rfl rfl rfl rfl rfl rfl

/-- C4: whenever the busy-classified events of a view overlap (after sorting
by start instant, some event starts strictly before the previous one ends),
both setStatusFromCalendarView and setCustomStatusFromCalendarView are
no-ops: no presence write, no custom-status write or clear, and no store
write, for every environment, user, current status and stored ActiveEvents. -/
theorem C4_overlap_suppresses_all (env : OpEnv) (cenv : CustomEnv) (user : User)
    (status : MMStatus) (viewEvents : List RemoteEvent)
    (hov : checkOverlappingEvents (filterBusyEvents viewEvents) = true) :
    (setStatusFromCalendarView env user status viewEvents).eff = {} ∧
    (setStatusFromCalendarView env user status viewEvents).changed = false ∧
    (setCustomStatusFromCalendarView cenv user viewEvents).removed = false ∧
    (setCustomStatusFromCalendarView cenv user viewEvents).setCustom = none ∧
    (setCustomStatusFromCalendarView cenv user viewEvents).flagWrites = [] ∧
    (setCustomStatusFromCalendarView cenv user viewEvents).changed = false := by
  have hadj : hasOverlapAdj (sortEventsByStart (filterBusyEvents viewEvents)) = true := hov
  rcases hl : sortEventsByStart (filterBusyEvents viewEvents) with _ | ⟨e0, rest⟩
  · rw [hl] at hadj
    simp [hasOverlapAdj] at hadj
  · rw [hl] at hadj
    refine ⟨?_, ?_, ?_, ?_, ?_, ?_⟩ <;>
      [skip; skip;
       (by_cases hsc : user.settings.setCustomStatus <;>
         simp [setCustomStatusFromCalendarView, hsc, hl, hadj]);
       (by_cases hsc : user.settings.setCustomStatus <;>
         simp [setCustomStatusFromCalendarView, hsc, hl, hadj]);
       (by_cases hsc : user.settings.setCustomStatus <;>
         simp [setCustomStatusFromCalendarView, hsc, hl, hadj]);
       (by_cases hsc : user.settings.setCustomStatus <;>
         simp [setCustomStatusFromCalendarView, hsc, hl, hadj])] <;>
    · unfold setStatusFromCalendarView
      by_cases h1 : user.settings.updateStatusFromOptions == ""
      · simp [h1]
      · by_cases h2 : status.status == StatusOffline && !user.settings.getConfirmation
        · simp [h1, h2]
        · simp [h1, h2, hl, hadj]

/-- Witness for C4 at two concretely overlapping busy events. -/
theorem C4_witness :
    (setStatusFromCalendarView {} exUser exStatus
        [exEvent, { exEvent with iCalUID := "e2", start := 150, endTime := 300 }]).eff = {} ∧
    (setStatusFromCalendarView {} exUser exStatus
        [exEvent, { exEvent with iCalUID := "e2", start := 150, endTime := 300 }]).changed = false ∧
    (setCustomStatusFromCalendarView {} exUser
        [exEvent, { exEvent with iCalUID := "e2", start := 150, endTime := 300 }]).removed = false ∧
    (setCustomStatusFromCalendarView {} exUser
        [exEvent, { exEvent with iCalUID := "e2", start := 150, endTime := 300 }]).setCustom = none ∧
    (setCustomStatusFromCalendarView {} exUser
        [exEvent, { exEvent with iCalUID := "e2", start := 150, endTime := 300 }]).flagWrites = [] ∧
    (setCustomStatusFromCalendarView {} exUser
        [exEvent, { exEvent with iCalUID := "e2", start := 150, endTime := 300 }]).changed = false :=
  C4_overlap_suppresses_all {} {} exUser exStatus
    [exEvent, { exEvent with iCalUID := "e2", start := 150, endTime := 300 }] (by decide)

/-- C5: an event with zero attendees never triggers a busy transition. First,
whenever the earliest-starting busy event of a non-overlapping non-empty busy
view has fewer than one attendee, setStatusFromCalendarView performs no
presence write and no store write (no side effect at all). Second, whenever a
user in the FREE state (empty stored ActiveEvents) receives any presence
write, the earliest-starting busy event of the view has at least one
attendee. -/
theorem C5_zero_attendees_never_busy :
    (∀ (env : OpEnv) (user : User) (status : MMStatus) (viewEvents : List RemoteEvent)
        (e0 : RemoteEvent) (rest : List RemoteEvent),
      sortEventsByStart (filterBusyEvents viewEvents) = e0 :: rest →
      hasOverlapAdj (e0 :: rest) = false →
      e0.attendees.length < 1 →
      (setStatusFromCalendarView env user status viewEvents).eff = {}) ∧
    (∀ (env : OpEnv) (user : User) (status : MMStatus) (viewEvents : List RemoteEvent),
      user.activeEvents = [] →
      (setStatusFromCalendarView env user status viewEvents).eff.presenceWrites ≠ [] →
      ∃ e0 rest, sortEventsByStart (filterBusyEvents viewEvents) = e0 :: rest ∧
        1 ≤ e0.attendees.length) := by
  constructor
  · intro env user status viewEvents e0 rest hl hadj hatt
    unfold setStatusFromCalendarView
    by_cases h1 : user.settings.updateStatusFromOptions == ""
    · simp [h1]
    · by_cases h2 : status.status == StatusOffline && !user.settings.getConfirmation
      · simp [h1, h2]
      · simp [h1, h2, hl, hadj, hatt]
  · intro env user status viewEvents hact hpw
    rcases hl : sortEventsByStart (filterBusyEvents viewEvents) with _ | ⟨e0, rest⟩
    · exfalso
      apply hpw
      unfold setStatusFromCalendarView
      by_cases h1 : user.settings.updateStatusFromOptions == ""
      · simp [h1]
      · by_cases h2 : status.status == StatusOffline && !user.settings.getConfirmation
        · simp [h1, h2]
        · simp [h1, h2, hl, hact]
    · refine ⟨e0, rest, rfl, ?_⟩
      by_cases hatt : e0.attendees.length < 1
      · exfalso
        apply hpw
        unfold setStatusFromCalendarView
        by_cases h1 : user.settings.updateStatusFromOptions == ""
        · simp [h1]
        · by_cases h2 : status.status == StatusOffline && !user.settings.getConfirmation
          · simp [h1, h2]
          · by_cases hadj : hasOverlapAdj (e0 :: rest)
            · simp [h1, h2, hl, hadj]
            · simp [h1, h2, hl, hadj, hatt]
      · omega

/-- Witness for C5 at a concrete zero-attendee busy event. -/
theorem C5_witness :
    (setStatusFromCalendarView {} { exUser with activeEvents := ["old 1"] } exStatus
        [{ exEvent with attendees := [] }]).eff = {} :=
  C5_zero_attendees_never_busy.1 {} { exUser with activeEvents := ["old 1"] } exStatus
    [{ exEvent with attendees := [] }] { exEvent with attendees := [] } []
    (by decide) (by decide) (by decide)

/-- Order-independent equality of two fingerprint lists viewed as sets. -/
def fingerprintSetEq (a b : List String) : Bool :=
  a.all (b.contains ·) && b.all (a.contains ·)

/-- C2 counterexample: a BUSY user whose stored ActiveEvents strictly contain
the remote fingerprint set. The remote fingerprint set does not equal the
stored set, yet the code decides that the event set is unchanged and performs
no write, so unchanged is not decided exactly at set equality. -/
theorem C2_counterexample :
    (setStatusFromCalendarView {} { exUser with activeEvents := ["event_id 100", "b 2"] }
        exStatus [exEvent]).msg = "No change in active events. Total number of events: 1" ∧
    (setStatusFromCalendarView {} { exUser with activeEvents := ["event_id 100", "b 2"] }
        exStatus [exEvent]).eff = {} ∧
    fingerprintSetEq (remoteHashesOf (sortEventsByStart (filterBusyEvents [exEvent])))
        ["event_id 100", "b 2"] = false := by
  refine ⟨by decide, by decide, by decide⟩

/-- C2 (amended): for a BUSY user (non-empty stored ActiveEvents) and a
non-empty, non-overlapping busy view whose earliest event has at least one
attendee, with the update option configured, the user not
offline-without-confirmation, and all store and API operations succeeding,
setStatusFromCalendarView decides that the event set is unchanged, performs
no write and reports no change exactly when every remote fingerprint is
already contained in the stored ActiveEvents (a containment, not a set
equality); in particular a second cycle over the same busy-event fingerprint
set performs no presence write and no store write. -/
theorem C2_unchanged_iff_contained (env : OpEnv) (user : User) (status : MMStatus)
    (viewEvents : List RemoteEvent) (e0 : RemoteEvent) (rest : List RemoteEvent)
    (h1 : env.storeUserOk = true) (h2 : env.storeActiveEventsOk = true)
    (h3 : env.updateStatusOk = true) (h4 : env.dmOk = true)
    (hopt : user.settings.updateStatusFromOptions ≠ "")
    (hnoff : ¬(status.status = StatusOffline ∧ user.settings.getConfirmation = false))
    (hact : user.activeEvents ≠ [])
    (hl : sortEventsByStart (filterBusyEvents viewEvents) = e0 :: rest)
    (hadj : hasOverlapAdj (e0 :: rest) = false)
    (hatt : 1 ≤ e0.attendees.length) :
    ((setStatusFromCalendarView env user status viewEvents).eff = {} ∧
     (setStatusFromCalendarView env user status viewEvents).changed = false ∧
     (setStatusFromCalendarView env user status viewEvents).msg =
       "No change in active events. Total number of events: " ++ toString (e0 :: rest).length)
    ↔ (∀ h ∈ remoteHashesOf (e0 :: rest), h ∈ user.activeEvents) := by
  have hopt' : (user.settings.updateStatusFromOptions == "") = false :=
    beq_eq_false_iff_ne.mpr hopt
  have hnoff' : (status.status == StatusOffline && !user.settings.getConfirmation) = false := by
    rcases not_and_or.mp hnoff with h | h
    · simp [beq_eq_false_iff_ne.mpr h]
    · have hc : user.settings.getConfirmation = true := by
        cases hc : user.settings.getConfirmation
        · exact absurd hc h
        · rfl
      simp [hc]
  have hact' : (user.activeEvents.length == 0) = false := by
    simp [List.length_eq_zero]
    exact hact
  have hatt' : ¬(e0.attendees.length < 1) := by omega
  by_cases hP : ∀ x ∈ remoteHashesOf (e0 :: rest), x ∈ user.activeEvents
  · refine iff_of_true ?_ hP
    have hne : ((remoteHashesOf (e0 :: rest)).any fun r => !user.activeEvents.contains r) = false := by
      rw [List.any_eq_false]
      intro r hr
      simp [hP r hr]
    unfold setStatusFromCalendarView
    simp only [hopt', hnoff', hl, hadj, hatt', hact', hne]
    simp
  · refine iff_of_false ?_ hP
    rintro ⟨hA, hB, hC⟩
    have hne : ((remoteHashesOf (e0 :: rest)).any fun r => !user.activeEvents.contains r) = true := by
      rw [List.any_eq_true]
      rcases not_forall.mp hP with ⟨r, hr⟩
      rcases Classical.not_imp.mp hr with ⟨hrmem, hrnot⟩
      exact ⟨r, hrmem, by simpa using hrnot⟩
    have hbs : (if user.settings.updateStatusFromOptions = AwayStatusOption
        then StatusAway else StatusDnd) ≠ StatusOffline := by
      split <;> decide
    unfold setStatusFromCalendarView setStatusOrAskUser at hA
    by_cases hcb : status.status =
        (if user.settings.updateStatusFromOptions = AwayStatusOption then StatusAway else StatusDnd)
    · simp [hopt', hnoff, hl, hadj, hatt', hact', hne, hP, hcb, hbs, h2] at hA
    · cases hconf : user.settings.getConfirmation with
      | true =>
        simp [hopt', hl, hadj, hatt', hact', hne, hP, hcb, hconf, h1, h2, h3, h4] at hA
      | false =>
        have hnoffS : status.status ≠ StatusOffline := by
          intro hh
          exact hnoff ⟨hh, hconf⟩
        simp [hopt', hnoffS, hl, hadj, hatt', hact', hne, hP, hcb, hconf, h1, h2, h3, h4] at hA

/-- Witness for C2 on the second cycle over an unchanged fingerprint set. -/
theorem C2_witness :
    ((setStatusFromCalendarView {} { exUser with activeEvents := [eventHash exEvent] }
        exStatus [exEvent]).eff = {} ∧
     (setStatusFromCalendarView {} { exUser with activeEvents := [eventHash exEvent] }
        exStatus [exEvent]).changed = false ∧
     (setStatusFromCalendarView {} { exUser with activeEvents := [eventHash exEvent] }
        exStatus [exEvent]).msg =
       "No change in active events. Total number of events: " ++ toString [exEvent].length) :=
  (C2_unchanged_iff_contained {} { exUser with activeEvents := [eventHash exEvent] }
      exStatus [exEvent] exEvent [] rfl rfl rfl rfl (by decide) (by decide) (by decide)
      (by decide) (by decide) (by decide)).mpr (by decide)

/-- The busy status configured by the update option: Away in Away mode,
DND otherwise. -/
def busyStatusOf (user : User) : String :=
  if user.settings.updateStatusFromOptions = AwayStatusOption then StatusAway else StatusDnd

/-- The configured busy status is never the offline status. -/
theorem busyStatusOf_ne_offline (user : User) : busyStatusOf user ≠ StatusOffline := by
  unfold busyStatusOf
  split <;> decide

/-- C3 counterexample: an offline user without confirmation, with non-empty
stored ActiveEvents and no busy events in the view, hits the early offline
return: no store write happens at all, so ActiveEvents is not cleared even
though the claim says it is cleared in both cases. -/
theorem C3_counterexample :
    (setStatusFromCalendarView {} { exUser with activeEvents := ["x 1"] }
        { exStatus with status := StatusOffline } []).eff.activeEventsWrites = [] ∧
    ({ exUser with activeEvents := ["x 1"] } : User).activeEvents ≠ [] ∧
    filterBusyEvents ([] : List RemoteEvent) = [] := by
  refine ⟨by decide, by decide, rfl⟩

/-- C3 (amended): for every user with the update option configured, not
offline-without-confirmation, with non-empty stored ActiveEvents and no
busy-classified events in the view, and all operations succeeding: when the
current remote status equals the configured busy status and GetConfirmation
is false, presence is written to LastStatus if non-empty else Online; when it
equals the busy status and GetConfirmation is true, a confirmation DM is sent
instead of a presence write; when it differs from the busy status, neither a
presence write nor a DM occurs; in all three cases ActiveEvents is cleared
(stored as the empty list). -/
theorem C3_busy_to_free_restore (env : OpEnv) (user : User) (status : MMStatus)
    (viewEvents : List RemoteEvent)
    (h1 : env.storeUserOk = true) (h2 : env.storeActiveEventsOk = true)
    (h3 : env.updateStatusOk = true) (h4 : env.dmOk = true)
    (hopt : user.settings.updateStatusFromOptions ≠ "")
    (hnoff : ¬(status.status = StatusOffline ∧ user.settings.getConfirmation = false))
    (hact : user.activeEvents ≠ [])
    (hfb : filterBusyEvents viewEvents = []) :
    (status.status = busyStatusOf user → user.settings.getConfirmation = false →
      (setStatusFromCalendarView env user status viewEvents).eff.presenceWrites =
        [if user.lastStatus = "" then StatusOnline else user.lastStatus] ∧
      (setStatusFromCalendarView env user status viewEvents).eff.dms = [] ∧
      (setStatusFromCalendarView env user status viewEvents).eff.activeEventsWrites = [[]] ∧
      (setStatusFromCalendarView env user status viewEvents).changed = true) ∧
    (status.status = busyStatusOf user → user.settings.getConfirmation = true →
      (setStatusFromCalendarView env user status viewEvents).eff.presenceWrites = [] ∧
      (setStatusFromCalendarView env user status viewEvents).eff.dms = [[]] ∧
      (setStatusFromCalendarView env user status viewEvents).eff.activeEventsWrites = [[]] ∧
      (setStatusFromCalendarView env user status viewEvents).changed = true) ∧
    (status.status ≠ busyStatusOf user →
      (setStatusFromCalendarView env user status viewEvents).eff.presenceWrites = [] ∧
      (setStatusFromCalendarView env user status viewEvents).eff.dms = [] ∧
      (setStatusFromCalendarView env user status viewEvents).eff.activeEventsWrites = [[]] ∧
      (setStatusFromCalendarView env user status viewEvents).changed = false) := by
  have hl' : sortEventsByStart (filterBusyEvents viewEvents) = [] := by
    rw [hfb]
    rfl
  have hact' : (user.activeEvents.length == 0) = false := by
    simp [List.length_eq_zero]
    exact hact
  have hopt' : (user.settings.updateStatusFromOptions == "") = false :=
    beq_eq_false_iff_ne.mpr hopt
  have hbs := busyStatusOf_ne_offline user
  have hbs' : (if user.settings.updateStatusFromOptions = AwayStatusOption
      then StatusAway else StatusDnd) ≠ StatusOffline := hbs
  refine ⟨?_, ?_, ?_⟩
  · intro hcb hconf
    have hnoffS : status.status ≠ StatusOffline := by
      rw [hcb]
      exact hbs
    unfold setStatusFromCalendarView setStatusOrAskUser
    by_cases hls : user.lastStatus = "" <;>
      simp [hopt', hnoffS, hl', hact', hcb, hconf, hls, busyStatusOf, hbs', h1, h2, h3, h4]
  · intro hcb hconf
    unfold setStatusFromCalendarView setStatusOrAskUser
    by_cases hls : user.lastStatus = "" <;>
      simp [hopt', hl', hact', hcb, hconf, hls, busyStatusOf, hbs', h1, h2, h3, h4]
  · intro hcb
    unfold setStatusFromCalendarView
    simp only [busyStatusOf] at hcb
    simp [hopt', hnoff, hl', hact', hcb, h2]

/-- Witness for C3: a DND user with LastStatus recorded restores it. -/
theorem C3_witness :
    (setStatusFromCalendarView {} { exUser with activeEvents := ["x 1"], lastStatus := "away" }
        { exStatus with status := StatusDnd } []).eff.presenceWrites = ["away"] ∧
    (setStatusFromCalendarView {} { exUser with activeEvents := ["x 1"], lastStatus := "away" }
        { exStatus with status := StatusDnd } []).eff.activeEventsWrites = [[]] ∧
    (setStatusFromCalendarView {} { exUser with activeEvents := ["x 1"], lastStatus := "away" }
        { exStatus with status := StatusDnd } []).changed = true := by
  obtain ⟨hc1, _, _⟩ := C3_busy_to_free_restore {}
    { exUser with activeEvents := ["x 1"], lastStatus := "away" }
    { exStatus with status := StatusDnd } [] rfl rfl rfl rfl
    (by decide) (by decide) (by decide) rfl
  obtain ⟨hp, _, ha, hch⟩ := hc1 (by decide) rfl
  exact ⟨by simpa using hp, ha, hch⟩

/-- Every fingerprint over the sorted busy events comes from a busy-classified
non-cancelled event of the original view. -/
theorem mem_remoteHashesOf_sorted {viewEvents : List RemoteEvent} {h : String}
    (hm : h ∈ remoteHashesOf (sortEventsByStart (filterBusyEvents viewEvents))) :
    ∃ e, e ∈ viewEvents ∧ e.showAs = "busy" ∧ e.isCancelled = false ∧ h = eventHash e := by
  unfold remoteHashesOf at hm
  rw [List.mem_map] at hm
  obtain ⟨e, he, rfl⟩ := hm
  rw [List.mem_filter] at he
  obtain ⟨hes, hec⟩ := he
  have hmem : e ∈ filterBusyEvents viewEvents :=
    ((List.perm_insertionSort _ _).mem_iff).mp hes
  rw [filterBusyEvents, List.mem_filter] at hmem
  obtain ⟨hev, hbusy⟩ := hmem
  exact ⟨e, hev, by simpa using hbusy, by simpa using hec, rfl⟩

/-- setStatusOrAskUser never writes the stored ActiveEvents list. -/
theorem setStatusOrAskUser_no_activeEvents (env : OpEnv) (user : User) (cs : MMStatus)
    (events : List RemoteEvent) (isFree : Bool) :
    (setStatusOrAskUser env user cs events isFree).2.1.activeEventsWrites = [] := by
  unfold setStatusOrAskUser
  dsimp only
  repeat' split
  all_goals rfl

/-- Every StoreUserActiveEvents write of the presence path stores either the
empty list or exactly the fingerprints of the sorted busy view. -/
theorem activeEventsWrites_shape (env : OpEnv) (user : User) (status : MMStatus)
    (viewEvents : List RemoteEvent) :
    (setStatusFromCalendarView env user status viewEvents).eff.activeEventsWrites = [] ∨
    (setStatusFromCalendarView env user status viewEvents).eff.activeEventsWrites = [[]] ∨
    (setStatusFromCalendarView env user status viewEvents).eff.activeEventsWrites =
      [remoteHashesOf (sortEventsByStart (filterBusyEvents viewEvents))] := by
  have hbso : (if user.settings.updateStatusFromOptions = AwayStatusOption
      then StatusAway else StatusDnd) ≠ StatusOffline := busyStatusOf_ne_offline user
  unfold setStatusFromCalendarView
  by_cases h1 : user.settings.updateStatusFromOptions == ""
  · simp [h1]
  · by_cases h2 : status.status == StatusOffline && !user.settings.getConfirmation
    · simp [h1, h2]
    · rcases hl : sortEventsByStart (filterBusyEvents viewEvents) with _ | ⟨e0, rest⟩
      · by_cases h3 : user.activeEvents.length == 0
        · simp [h1, h2, hl, h3]
        · by_cases h4 : status.status =
              (if user.settings.updateStatusFromOptions = AwayStatusOption
                then StatusAway else StatusDnd)
          · rcases hres : setStatusOrAskUser env user status [] true with ⟨merr, eff, u2⟩
            have heff : eff.activeEventsWrites = [] := by
              have hx := setStatusOrAskUser_no_activeEvents env user status [] true
              rw [hres] at hx
              exact hx
            rcases merr with _ | err
            · by_cases h5 : env.storeActiveEventsOk <;>
                simp [hbso, h1, h2, hl, h3, h4, h5, hres, heff]
            · simp [hbso, h1, h2, hl, h3, h4, hres, heff]
          · by_cases h5 : env.storeActiveEventsOk <;>
              simp [hbso, h1, h2, hl, h3, h4, h5]
      · by_cases h6 : hasOverlapAdj (e0 :: rest)
        · simp [h1, h2, hl, h6]
        · by_cases h7 : e0.attendees.length < 1
          · simp [h1, h2, hl, h6, h7]
          · by_cases h3 : user.activeEvents.length == 0
            · by_cases h4 : status.status =
                  (if user.settings.updateStatusFromOptions = AwayStatusOption
                    then StatusAway else StatusDnd)
              · by_cases h5 : env.storeActiveEventsOk <;>
                  by_cases h8 : env.storeUserOk <;>
                  simp [hbso, h1, h2, hl, h6, h7, h3, h4, h5, h8]
              · rcases hres : setStatusOrAskUser env user status (e0 :: rest) false
                  with ⟨merr, eff, u2⟩
                have heff : eff.activeEventsWrites = [] := by
                  have hx := setStatusOrAskUser_no_activeEvents env user status (e0 :: rest) false
                  rw [hres] at hx
                  exact hx
                rcases merr with _ | err
                · by_cases h5 : env.storeActiveEventsOk <;>
                    simp [hbso, h1, h2, hl, h6, h7, h3, h4, h5, hres, heff]
                · simp [hbso, h1, h2, hl, h6, h7, h3, h4, hres, heff]
            · by_cases hP : ∀ x ∈ remoteHashesOf (e0 :: rest), x ∈ user.activeEvents
              · have h9 : ((remoteHashesOf (e0 :: rest)).any
                    fun r => !user.activeEvents.contains r) = false := by
                  rw [List.any_eq_false]
                  intro r hr
                  simp [hP r hr]
                simp only [h1, h2, hl, h6, h7, h3, h9]
                simp
              · have h9 : ((remoteHashesOf (e0 :: rest)).any
                    fun r => !user.activeEvents.contains r) = true := by
                  rw [List.any_eq_true]
                  rcases not_forall.mp hP with ⟨r, hr⟩
                  rcases Classical.not_imp.mp hr with ⟨hrm, hrn⟩
                  exact ⟨r, hrm, by simpa using hrn⟩
                by_cases h4 : status.status =
                    (if user.settings.updateStatusFromOptions = AwayStatusOption
                      then StatusAway else StatusDnd)
                · by_cases h5 : env.storeActiveEventsOk <;>
                    simp [hbso, h1, h2, hl, h6, h7, h3, h9, hP, h4, h5]
                · rcases hres : setStatusOrAskUser env user status (e0 :: rest) false
                    with ⟨merr, eff, u2⟩
                  have heff : eff.activeEventsWrites = [] := by
                    have hx := setStatusOrAskUser_no_activeEvents env user status (e0 :: rest) false
                    rw [hres] at hx
                    exact hx
                  rcases merr with _ | err
                  · by_cases h5 : env.storeActiveEventsOk <;>
                      simp [hbso, h1, h2, hl, h6, h7, h3, h9, hP, h4, h5, hres, heff]
                  · simp [hbso, h1, h2, hl, h6, h7, h3, h9, hP, h4, hres, heff]

/-- C10: every fingerprint that setStatusFromCalendarView writes to
ActiveEvents comes from a non-cancelled busy-classified event of the view;
and a cancelled busy event still counts toward triggering the busy
transition: a FREE user in DND mode without confirmation, online, whose only
busy event is cancelled with at least one attendee, gets presence written to
DND while ActiveEvents is stored as the empty list. -/
theorem C10_fingerprints_and_cancelled_trigger :
    (∀ (env : OpEnv) (user : User) (status : MMStatus) (viewEvents : List RemoteEvent)
        (w : List String) (h : String),
      w ∈ (setStatusFromCalendarView env user status viewEvents).eff.activeEventsWrites →
      h ∈ w →
      ∃ e, e ∈ viewEvents ∧ e.showAs = "busy" ∧ e.isCancelled = false ∧ h = eventHash e) ∧
    (∀ (user : User) (status : MMStatus) (e : RemoteEvent),
      user.settings.updateStatusFromOptions = DNDStatusOption →
      user.settings.getConfirmation = false →
      status.status = StatusOnline →
      user.activeEvents = [] →
      e.showAs = "busy" → e.isCancelled = true → 1 ≤ e.attendees.length →
      (setStatusFromCalendarView {} user status [e]).eff.presenceWrites = [StatusDnd] ∧
      (setStatusFromCalendarView {} user status [e]).eff.activeEventsWrites = [[]] ∧
      (setStatusFromCalendarView {} user status [e]).changed = true) := by
  constructor
  · intro env user status viewEvents w h hw hh
    rcases activeEventsWrites_shape env user status viewEvents with hs | hs | hs
    · rw [hs] at hw
      simp at hw
    · rw [hs] at hw
      simp at hw
      subst hw
      simp at hh
    · rw [hs] at hw
      simp at hw
      subst hw
      exact mem_remoteHashesOf_sorted hh
  · intro user status e hopt hconf hst hact hbusy hcan hatt
    have hatt' : ¬(e.attendees.length < 1) := by omega
    unfold setStatusFromCalendarView setStatusOrAskUser
    simp [hopt, hconf, hst, hact, hbusy, hcan, hatt', DNDStatusOption, AwayStatusOption,
      StatusOnline, StatusOffline, StatusDnd, filterBusyEvents, sortEventsByStart,
      List.insertionSort, List.orderedInsert, hasOverlapAdj, remoteHashesOf]

/-- Witness for C10 at the concrete cancelled busy event. -/
theorem C10_witness :
    (setStatusFromCalendarView {} exUser exStatus
        [{ exEvent with isCancelled := true }]).eff.presenceWrites = [StatusDnd] ∧
    (setStatusFromCalendarView {} exUser exStatus
        [{ exEvent with isCancelled := true }]).eff.activeEventsWrites = [[]] ∧
    (setStatusFromCalendarView {} exUser exStatus
        [{ exEvent with isCancelled := true }]).changed = true :=
  C10_fingerprints_and_cancelled_trigger.2 exUser exStatus { exEvent with isCancelled := true }
    rfl rfl rfl rfl rfl rfl (by decide)

/-- A custom-status outcome with no observable effect and no reported
change. -/
def customNoop (c : CustomOutcome) : Prop :=
  c.removed = false ∧ c.setCustom = none ∧ c.flagWrites = [] ∧ c.changed = false

/-- C6: setCustomStatusFromCalendarView evaluates its rules in order with
first match winning, for a user with the custom-status setting enabled and
all external operations succeeding: (1) no busy events clears the custom
status and stores IsCustomStatusSet=false only if IsCustomStatusSet was true,
else no-op; (2) overlapping busy events: no-op; (3) earliest event cancelled:
no-op; (4) earliest event without attendees: no-op; (5) a custom status
present while IsCustomStatusSet is false: no-op; (6) otherwise the fixed
custom status (emoji calendar, text In a meeting) expiring at the earliest
event end is set and IsCustomStatusSet=true is stored. -/
theorem C6_custom_status_rules (env : CustomEnv) (user : User)
    (viewEvents : List RemoteEvent)
    (hsc : user.settings.setCustomStatus = true)
    (hg : env.getUserOk = true) (hr : env.removeOk = true)
    (hu : env.updateOk = true) (hf : env.storeFlagOk = true) :
    (sortEventsByStart (filterBusyEvents viewEvents) = [] →
      (user.isCustomStatusSet = true →
        (setCustomStatusFromCalendarView env user viewEvents).removed = true ∧
        (setCustomStatusFromCalendarView env user viewEvents).flagWrites = [false] ∧
        (setCustomStatusFromCalendarView env user viewEvents).setCustom = none) ∧
      (user.isCustomStatusSet = false →
        customNoop (setCustomStatusFromCalendarView env user viewEvents))) ∧
    (∀ e0 rest, sortEventsByStart (filterBusyEvents viewEvents) = e0 :: rest →
      (hasOverlapAdj (e0 :: rest) = true →
        customNoop (setCustomStatusFromCalendarView env user viewEvents)) ∧
      (hasOverlapAdj (e0 :: rest) = false → e0.isCancelled = true →
        customNoop (setCustomStatusFromCalendarView env user viewEvents)) ∧
      (hasOverlapAdj (e0 :: rest) = false → e0.isCancelled = false →
        e0.attendees.length < 1 →
        customNoop (setCustomStatusFromCalendarView env user viewEvents)) ∧
      (hasOverlapAdj (e0 :: rest) = false → e0.isCancelled = false →
        1 ≤ e0.attendees.length →
        env.currentCustomStatus.isSome = true → user.isCustomStatusSet = false →
        customNoop (setCustomStatusFromCalendarView env user viewEvents)) ∧
      (hasOverlapAdj (e0 :: rest) = false → e0.isCancelled = false →
        1 ≤ e0.attendees.length →
        (env.currentCustomStatus = none ∨ user.isCustomStatusSet = true) →
        (setCustomStatusFromCalendarView env user viewEvents).setCustom =
          some { emoji := "calendar", text := "In a meeting",
                 expiresAt := e0.endTime, duration := "date_and_time" } ∧
        (setCustomStatusFromCalendarView env user viewEvents).flagWrites = [true] ∧
        (setCustomStatusFromCalendarView env user viewEvents).changed = true)) := by
  constructor
  · intro hl
    constructor
    · intro hics
      unfold setCustomStatusFromCalendarView
      simp [hsc, hl, hics, hr, hf]
    · intro hics
      unfold setCustomStatusFromCalendarView
      simp [customNoop, hsc, hl, hics]
  · intro e0 rest hl
    refine ⟨?_, ?_, ?_, ?_, ?_⟩
    · intro hov
      unfold setCustomStatusFromCalendarView
      simp [customNoop, hsc, hl, hov]
    · intro hov hcan
      unfold setCustomStatusFromCalendarView
      simp [customNoop, hsc, hl, hov, hcan]
    · intro hov hcan hatt
      unfold setCustomStatusFromCalendarView
      simp [customNoop, hsc, hl, hov, hcan, hatt]
    · intro hov hcan hatt hsome hics
      have hatt' : ¬(e0.attendees.length < 1) := by omega
      unfold setCustomStatusFromCalendarView
      simp [customNoop, hsc, hl, hov, hcan, hatt', hsome, hics, hg]
    · intro hov hcan hatt hown
      have hatt' : ¬(e0.attendees.length < 1) := by omega
      unfold setCustomStatusFromCalendarView
      rcases hown with hnone | hics
      · simp [hsc, hl, hov, hcan, hatt', hnone, hg, hu, hf]
      · simp [hsc, hl, hov, hcan, hatt', hics, hg, hu, hf]

/-- Witness for C6: the sample user sets the fixed custom status on the
sample busy event. -/
theorem C6_witness :
    (setCustomStatusFromCalendarView {} exUser [exEvent]).setCustom =
      some { emoji := "calendar", text := "In a meeting",
             expiresAt := 200, duration := "date_and_time" } ∧
    (setCustomStatusFromCalendarView {} exUser [exEvent]).flagWrites = [true] ∧
    (setCustomStatusFromCalendarView {} exUser [exEvent]).changed = true :=
  ((C6_custom_status_rules {} exUser [exEvent] rfl rfl rfl rfl rfl).2 exEvent []
    (by decide)).2.2.2.2 (by decide) rfl (by decide) (Or.inl rfl)

/-- The reminder window test: the event start differs from now plus the ten
minute lead by strictly less than the notification window on either side. -/
def inReminderWindow (now : Timestamp) (e : RemoteEvent) : Bool :=
  decide (e.start - (now + upcomingEventNotificationTime) < upcomingEventNotificationWindow) &&
  decide (-upcomingEventNotificationWindow < e.start - (now + upcomingEventNotificationTime))

/-- When the timezone oracle answers, the reminder loop sends a DM exactly
for the non-cancelled events inside the window whose rendering succeeds,
whatever the cached timezone state is. -/
theorem notifyAux_some (env : NotifyEnv) (z : String) (hz : env.timezone = some z) :
    ∀ (l : List RemoteEvent) (tz : String), tz = "" ∨ tz = z →
      notifyUpcomingEventsAux env l tz =
        l.filter (fun e => !e.isCancelled && inReminderWindow env.now e && env.renderOk e) := by
  intro l
  induction l with
  | nil =>
    intro tz _
    rfl
  | cons e rest ih =>
    intro tz htz
    unfold notifyUpcomingEventsAux
    by_cases hc : e.isCancelled
    · simp [hc, ih tz htz]
    · cases hwb : inReminderWindow env.now e with
      | true =>
        have hw : e.start - (env.now + upcomingEventNotificationTime) <
              upcomingEventNotificationWindow ∧
            -upcomingEventNotificationWindow <
              e.start - (env.now + upcomingEventNotificationTime) := by
          simpa [inReminderWindow] using hwb
        by_cases ht0 : tz = ""
        · subst ht0
          by_cases hrk : env.renderOk e <;>
            simp [hc, hw, hz, hwb, hrk, ih z (Or.inr rfl)]
        · have htb : (tz == "") = false := beq_eq_false_iff_ne.mpr ht0
          by_cases hrk : env.renderOk e <;>
            simp [hc, hw, htb, hwb, hrk, ih tz htz]
      | false =>
        have hw : ¬(e.start - (env.now + upcomingEventNotificationTime) <
              upcomingEventNotificationWindow ∧
            -upcomingEventNotificationWindow <
              e.start - (env.now + upcomingEventNotificationTime)) := by
          intro hAB
          simp [inReminderWindow, hAB.1, hAB.2] at hwb
        simp [hc, hwb, ih tz htz]
        intro h1 h2
        exact absurd ⟨h1, by omega⟩ hw

/-- When the timezone oracle fails, the reminder loop sends nothing: it
aborts at the first event that would need a reminder. -/
theorem notifyAux_none (env : NotifyEnv) (hz : env.timezone = none) :
    ∀ l : List RemoteEvent, notifyUpcomingEventsAux env l "" = [] := by
  intro l
  induction l with
  | nil => rfl
  | cons e rest ih =>
    unfold notifyUpcomingEventsAux
    by_cases hc : e.isCancelled
    · simp [hc, ih]
    · by_cases hw : (e.start - (env.now + upcomingEventNotificationTime) <
            upcomingEventNotificationWindow ∧
          -upcomingEventNotificationWindow <
            e.start - (env.now + upcomingEventNotificationTime))
      · simp [hc, hw, hz]
      · simp [hc, ih]
        intro h1 h2
        exact absurd ⟨h1, by omega⟩ hw

/-- C7: with the timezone resolvable, notifyUpcomingEvents sends a reminder
DM exactly for the events that are not cancelled, whose start lies strictly
within the notification window (110 percent of the five minute sync interval,
5.5 minutes) of now plus ten minutes, and whose rendering succeeds (a render
failure skips only that event); a timezone resolution failure aborts delivery
entirely for the user; and the window constant equals 5.5 minutes. -/
theorem C7_reminder_delivery :
    (∀ (env : NotifyEnv) (events : List RemoteEvent) (z : String),
      env.timezone = some z →
      notifyUpcomingEvents env events =
        events.filter (fun e => !e.isCancelled && inReminderWindow env.now e && env.renderOk e)) ∧
    (∀ (env : NotifyEnv) (events : List RemoteEvent),
      env.timezone = none → notifyUpcomingEvents env events = []) ∧
    upcomingEventNotificationWindow = 330 * 1000000 ∧
    upcomingEventNotificationWindow * 10 = StatusSyncJobInterval * 11 := by
  refine ⟨?_, ?_, by decide, by decide⟩
  · intro env events z hz
    exact notifyAux_some env z hz events "" (Or.inl rfl)
  · intro env events hz
    exact notifyAux_none env hz events

/-- Sample upcoming event inside the reminder window. -/
def exReminderIn : RemoteEvent :=
  { iCalUID := "rin", start := 600000000, endTime := 700000000, showAs := "busy",
    isCancelled := false, attendees := [] }

/-- Sample event outside the reminder window. -/
def exReminderOut : RemoteEvent :=
  { iCalUID := "rout", start := 2000000000, endTime := 2100000000, showAs := "busy",
    isCancelled := false, attendees := [] }

/-- Witness for C7: with the timezone available, only the in-window event
receives a reminder DM. -/
theorem C7_witness :
    notifyUpcomingEvents { now := 0, timezone := some "UTC", renderOk := fun _ => true }
      [exReminderIn, exReminderOut] = [exReminderIn] := by
  rw [C7_reminder_delivery.1 { now := 0, timezone := some "UTC", renderOk := fun _ => true }
    [exReminderIn, exReminderOut] "UTC" rfl]
  decide

/-- The load loop of syncUsers counts one failure per index entry whose
store load fails and keeps exactly the loaded users that need syncing, in
order: a load failure skips only that user. -/
theorem loadPhase_spec (env : SyncEnv) :
    ∀ idx : List UserIndexEntry,
      (loadPhase env idx).1 =
        (idx.filter (fun u => (env.loadUser u.mattermostUserID).isNone)).length ∧
      (loadPhase env idx).2 = idx.filterMap (fun u =>
        match env.loadUser u.mattermostUserID with
        | none => none
        | some user =>
          if user.settings.updateStatusFromOptions != NotSetStatusOption
              || user.settings.receiveReminders || user.settings.setCustomStatus
          then some user else none) := by
  intro idx
  induction idx with
  | nil => simp [loadPhase]
  | cons u rest ih =>
    obtain ⟨ih1, ih2⟩ := ih
    rcases hres : loadPhase env rest with ⟨f, us⟩
    rw [hres] at ih1 ih2
    rcases hl : env.loadUser u.mattermostUserID with _ | user
    · simp [loadPhase, hl, hres, ih1, ih2]
    · by_cases hq : ((¬user.settings.updateStatusFromOptions = NotSetStatusOption ∨
            user.settings.receiveReminders = true) ∨
          user.settings.setCustomStatus = true)
      · simp [loadPhase, hl, hres, hq, ih1, ih2]
      · simp [loadPhase, hl, hres, hq, ih1, ih2]

/-- One loop iteration adds its own failure count and pipeline runs on top of
the accumulated state: iterations are independent of the accumulator. -/
theorem statusStep_decomp (env : SyncEnv) (toUpdate : List User) (statuses : List MMStatus)
    (acc : LoopState) (v : ViewResponse) :
    (statusStep env toUpdate statuses acc v).failed =
      acc.failed + (statusStep env toUpdate statuses {} v).failed ∧
    (statusStep env toUpdate statuses acc v).presenceRuns =
      acc.presenceRuns ++ (statusStep env toUpdate statuses {} v).presenceRuns ∧
    (statusStep env toUpdate statuses acc v).customRuns =
      acc.customRuns ++ (statusStep env toUpdate statuses {} v).customRuns := by
  unfold statusStep
  rcases hu : userByRemoteID toUpdate v.remoteUserID with _ | user
  · simp [hu]
  · rcases hve : v.viewErr with _ | err
    · rcases hsl : statusLookup statuses user.mattermostUserID with _ | st
      · simp [hu, hve, hsl]
      · by_cases ho : user.settings.updateStatusFromOptions = NotSetStatusOption <;>
          by_cases hcs : user.settings.setCustomStatus = true <;>
          by_cases hf1 : (setStatusFromCalendarView env.opEnv user st v.events).fail = true <;>
          by_cases hf2 : (setCustomStatusFromCalendarView (env.customEnvOf user.mattermostUserID)
            user v.events).fail = true <;>
          by_cases hc1 : (setStatusFromCalendarView env.opEnv user st v.events).changed = true <;>
          by_cases hc2 : (setCustomStatusFromCalendarView (env.customEnvOf user.mattermostUserID)
            user v.events).changed = true <;>
          simp [hu, hve, hsl, ho, hcs, hf1, hf2, hc1, hc2]
    · simp [hu, hve]

/-- The failure counter of the per-view loop is the sum of the per-view
failure contributions: one view never affects the processing of another. -/
theorem foldl_statusStep_failed (env : SyncEnv) (toUpdate : List User)
    (statuses : List MMStatus) :
    ∀ (views : List ViewResponse) (acc : LoopState),
      (views.foldl (statusStep env toUpdate statuses) acc).failed =
        acc.failed +
          (views.map (fun v => (statusStep env toUpdate statuses {} v).failed)).sum := by
  intro views
  induction views with
  | nil =>
    intro acc
    simp
  | cons v rest ih =>
    intro acc
    simp only [List.foldl_cons, List.map_cons, List.sum_cons]
    rw [ih, (statusStep_decomp env toUpdate statuses acc v).1]
    omega

/-- The presence pipeline runs of the per-view loop are the concatenation of
the per-view contributions, in view order. -/
theorem foldl_statusStep_presenceRuns (env : SyncEnv) (toUpdate : List User)
    (statuses : List MMStatus) :
    ∀ (views : List ViewResponse) (acc : LoopState),
      (views.foldl (statusStep env toUpdate statuses) acc).presenceRuns =
        acc.presenceRuns ++
          (views.map (fun v => (statusStep env toUpdate statuses {} v).presenceRuns)).flatten := by
  intro views
  induction views with
  | nil =>
    intro acc
    simp
  | cons v rest ih =>
    intro acc
    simp only [List.foldl_cons, List.map_cons, List.flatten]
    rw [ih, (statusStep_decomp env toUpdate statuses acc v).2.1]
    simp [List.append_assoc]

/-- C8: a per-user failure is contained: a store-load failure of one user
counts one summary failure and drops only that user from the kept list while
the rest of the index is still processed; a per-user calendar-view error
counts one failure in the loop and runs no pipeline for that user, while the
loop contribution of every view is independent of the others and is summed;
whereas a failure to obtain the superuser client or to load the user index
makes SyncAll return a non-nil error. -/
theorem C8_per_user_vs_structural_failures :
    (∀ (env : SyncEnv) (idx : List UserIndexEntry),
      (loadPhase env idx).1 =
        (idx.filter (fun u => (env.loadUser u.mattermostUserID).isNone)).length ∧
      (loadPhase env idx).2 = idx.filterMap (fun u =>
        match env.loadUser u.mattermostUserID with
        | none => none
        | some user =>
          if user.settings.updateStatusFromOptions != NotSetStatusOption
              || user.settings.receiveReminders || user.settings.setCustomStatus
          then some user else none)) ∧
    (∀ (env : SyncEnv) (toUpdate : List User) (statuses : List MMStatus)
        (views : List ViewResponse) (acc : LoopState),
      (views.foldl (statusStep env toUpdate statuses) acc).failed =
        acc.failed +
          (views.map (fun v => (statusStep env toUpdate statuses {} v).failed)).sum ∧
      (views.foldl (statusStep env toUpdate statuses) acc).presenceRuns =
        acc.presenceRuns ++
          (views.map (fun v => (statusStep env toUpdate statuses {} v).presenceRuns)).flatten) ∧
    (∀ (env : SyncEnv) (toUpdate : List User) (statuses : List MMStatus)
        (v : ViewResponse) (user : User) (err : String),
      userByRemoteID toUpdate v.remoteUserID = some user →
      v.viewErr = some err →
      (statusStep env toUpdate statuses {} v).failed = 1 ∧
      (statusStep env toUpdate statuses {} v).presenceRuns = [] ∧
      (statusStep env toUpdate statuses {} v).customRuns = []) ∧
    (∀ env : SyncEnv, env.filterSuperuserOk = false → (SyncAll env).err.isSome = true) ∧
    (∀ (env : SyncEnv) (emsg : String),
      env.loadUserIndex = Except.error emsg → emsg ≠ "not found" →
      (SyncAll env).err.isSome = true) := by
  refine ⟨loadPhase_spec, ?_, ?_, ?_, ?_⟩
  · intro env toUpdate statuses views acc
    exact ⟨foldl_statusStep_failed env toUpdate statuses views acc,
      foldl_statusStep_presenceRuns env toUpdate statuses views acc⟩
  · intro env toUpdate statuses v user err hu hve
    unfold statusStep
    simp [hu, hve]
  · intro env hf
    unfold SyncAll
    simp [hf]
  · intro env emsg hidx hnf
    unfold SyncAll
    by_cases hf : env.filterSuperuserOk
    · simp [hf, hidx, beq_eq_false_iff_ne.mpr hnf]
    · simp [hf]

/-- Witness for C8: a missing superuser client aborts the whole cycle. -/
theorem C8_witness :
    (SyncAll { filterSuperuserOk := false }).err.isSome = true :=
  C8_per_user_vs_structural_failures.2.2.2.1 { filterSuperuserOk := false } rfl

end Availability
